import Mathlib

set_option maxRecDepth 16384

/-!
Verification of the Nexus lead-scoring and pipeline-orchestration core
(`scripts/lead_gen.py`, `scripts/outreach.py`, `scripts/sales.py`,
`scripts/ops.py`, `scripts/run_pipeline.py`), shallowly embedded in Lean.

Text is modelled as `List Char`; Python's `str.lower` is modelled by
`Char.toLower` (faithful on the ASCII inputs the scoring engine sees).
Machine floats in `calculate_score` are modelled by exact rationals: an
exhaustive check over every reachable (pain, authority, budget, multiplier)
combination shows Python's `int(float-expression)` coincides with the exact
rational floor, so the rational model is faithful on all reachable scores.
-/

namespace Nexus

/-- ASCII whitespace, as matched by the regex class in `score_pain`. -/
def isSpaceChar (c : Char) : Bool :=
  c = ' ' || c = '\t' || c = '\n' || c = '\r' || c = (Char.ofNat 11) || c = (Char.ofNat 12)

/-- Lowercase a string's characters (Python `str.lower` on ASCII text). -/
def lowerChars (s : String) : List Char :=
  s.toList.map Char.toLower

/-- Python's `needle in hay` substring test. -/
def containsSub (hay : List Char) (needle : List Char) : Bool :=
  needle.isPrefixOf hay ||
    match hay with
    | [] => false
    | _ :: t => containsSub t needle

/-- `needle in hay` for string needles over lowered character lists. -/
def hasSub (hay : List Char) (needle : String) : Bool :=
  containsSub hay needle.toList

/-- Numeric value of a digit run, as Python `int` applied to `group(1)`. -/
def digitsToNat (ds : List Char) : Nat :=
  ds.foldl (fun acc c => acc * 10 + (c.toNat - '0'.toNat)) 0

/-- One attempted match of the regex `(\d+)\+?\s*(hours?|hrs?)` anchored at the
head of the list, returning the captured number on success.  The greedy
sub-patterns never need to backtrack here, since no later literal can consume
a digit, a plus sign, or whitespace. -/
def matchHoursAt (l : List Char) : Option Nat :=
  let ds := l.takeWhile Char.isDigit
  let rest := l.dropWhile Char.isDigit
  if ds.isEmpty then none
  else
    let rest2 := match rest with
      | '+' :: r => r
      | r => r
    let rest3 := rest2.dropWhile isSpaceChar
    if "hour".toList.isPrefixOf rest3 || "hr".toList.isPrefixOf rest3 then
      some (digitsToNat ds)
    else none

/-- `re.search(r'(\d+)\+?\s*(hours?|hrs?)', text)`: leftmost match wins. -/
def searchHours : List Char → Option Nat
  | [] => none
  | c :: rest =>
    match matchHoursAt (c :: rest) with
    | some n => some n
    | none => searchHours rest

/-- One attempted match of `(every|each)\s+(day|morning|week)` anchored at the
head of the list. -/
def matchFreqAt (l : List Char) : Bool :=
  let after : Option (List Char) :=
    if "every".toList.isPrefixOf l then some (l.drop 5)
    else if "each".toList.isPrefixOf l then some (l.drop 4)
    else none
  match after with
  | none => false
  | some r =>
    let sp := r.takeWhile isSpaceChar
    let r2 := r.dropWhile isSpaceChar
    !sp.isEmpty &&
      ("day".toList.isPrefixOf r2 || "morning".toList.isPrefixOf r2 ||
        "week".toList.isPrefixOf r2)

/-- `re.search(r'(every|each)\s+(day|morning|week)', text)` as a Boolean. -/
def searchFreq : List Char → Bool
  | [] => false
  | c :: rest => matchFreqAt (c :: rest) || searchFreq rest

/-- The keyword categories of `score_pain` (`keyword_patterns`); only the hit
itself matters for the score, since the first matching category adds 15 and
breaks. -/
def painKeywordHit (t : List Char) : Bool :=
  hasSub t "data entry" ||
  (hasSub t "manual" || hasSub t "manually") ||
  (hasSub t "spreadsheet" || hasSub t "excel") ||
  (hasSub t "copy" || hasSub t "copying" || hasSub t "paste" || hasSub t "pasting") ||
  (hasSub t "reconciliation" || hasSub t "reconciling") ||
  hasSub t "inventory" ||
  (hasSub t "hiring" || hasSub t "hire")

/-- The `emotion_words` lexicon of `score_pain`. -/
def emotionHit (t : List Char) : Bool :=
  hasSub t "killing" || hasSub t "insane" || hasSub t "brutal" ||
  hasSub t "hell" || hasSub t "nightmare" || hasSub t "😭" || hasSub t "🤬"

/-- Points from the quantified-time detector of `score_pain`. -/
def timePoints (t : List Char) : Nat :=
  match searchHours t with
  | some hours => if hours ≥ 20 then 35 else if hours ≥ 5 then 25 else 15
  | none => 0

/-- Points from the recurring-frequency detector of `score_pain`. -/
def freqPoints (t : List Char) : Nat :=
  if searchFreq t then 20 else 0

/-- Points from the keyword-category detector of `score_pain`. -/
def keywordPoints (t : List Char) : Nat :=
  if painKeywordHit t then 15 else 0

/-- Points from the emotional-intensity detector of `score_pain`. -/
def emotionPoints (t : List Char) : Nat :=
  if emotionHit t then 20 else 0

/-- Points from the hiring/headcount detector of `score_pain`. -/
def hiringPoints (t : List Char) : Nat :=
  if hasSub t "hiring" || hasSub t "headcount" then 25 else 0

/-- `LeadGenAgent.score_pain`: pain intensity 0-100.  The accompanying signal
strings are built from a Python `set` (unordered) and carry no score
information, so they are not modelled. -/
def score_pain (text : String) : Nat :=
  let t := lowerChars text
  min (timePoints t + freqPoints t + keywordPoints t + emotionPoints t + hiringPoints t) 100

/-- Authority tiers assigned by `score_authority`. -/
inductive AuthTier
  | decision_maker
  | influencer
  | individual
deriving DecidableEq, Repr

/-- Lead tiers assigned by `calculate_score`. -/
inductive LeadTier
  | hot
  | warm
  | cool
deriving DecidableEq, Repr

/-- Industries recognised by `detect_industry`. -/
inductive Industry
  | ecommerce
  | saas
  | agency
  | fintech
  | consulting
  | other
deriving DecidableEq, Repr

/-- A Signal Record: the fields of the raw item dicts that the scoring engine
reads.  `Option` models a possibly missing dict key, read via `item.get(...)`
with the source's defaults. -/
structure Item where
  id : String
  source : String
  text : Option String
  description : Option String
  title : Option String
  company : Option String
  author : Option String
  authorName : Option String
  bio : Option String
  followers : Nat
  companySize : Option String
deriving DecidableEq, Repr

/-- Role points from the `authority_tiers` table of `score_authority`:
first matching tier only. -/
def rolePoints (combined : List Char) : Nat :=
  if hasSub combined "founder" || hasSub combined "ceo" || hasSub combined "owner" ||
      hasSub combined "co-founder" then 45
  else if hasSub combined "cto" || hasSub combined "coo" || hasSub combined "chief" then 40
  else if hasSub combined "head of" || hasSub combined "vp " ||
      hasSub combined "vice president" then 30
  else if hasSub combined "director" || hasSub combined "manager" then 20
  else 0

/-- Follower-count bonus of `score_authority`. -/
def followerPoints (followers : Nat) : Nat :=
  if followers > 5000 then 25
  else if followers > 1000 then 15
  else if followers > 500 then 10
  else 0

/-- `LeadGenAgent.score_authority`: combined role/bio keyword points plus the
follower bonus; the tier is read off the raw sum, the returned score is
clamped to 100. -/
def score_authority (item : Item) : Nat × AuthTier :=
  let combined := lowerChars (item.bio.getD "") ++ [' '] ++ lowerChars (item.title.getD "")
  let score := rolePoints combined + followerPoints item.followers
  let tier :=
    if score ≥ 60 then AuthTier.decision_maker
    else if score ≥ 35 then AuthTier.influencer
    else AuthTier.individual
  (min score 100, tier)

/-- `LeadGenAgent.detect_industry`: first matching keyword cluster over
`text + ' ' + description`, lowered. -/
def detect_industry (item : Item) : Industry :=
  let combined := lowerChars (item.text.getD "" ++ " " ++ item.description.getD "")
  if hasSub combined "ecommerce" || hasSub combined "shopify" || hasSub combined "amazon" ||
      hasSub combined "etsy" || hasSub combined "inventory" || hasSub combined "product" then
    .ecommerce
  else if hasSub combined "saas" || hasSub combined "software" || hasSub combined "api" ||
      hasSub combined "platform" || hasSub combined "tech company" then
    .saas
  else if hasSub combined "agency" || hasSub combined "client" || hasSub combined "marketing" ||
      hasSub combined "brand" then
    .agency
  else if hasSub combined "fintech" || hasSub combined "finance" ||
      hasSub combined "reconciliation" || hasSub combined "payment" ||
      hasSub combined "banking" then
    .fintech
  else if hasSub combined "consulting" || hasSub combined "advisor" ||
      hasSub combined "services" then
    .consulting
  else .other

/-- The `multipliers` table of `calculate_score` (every industry the detector
can return is a key, so the dict-lookup default 0.8 is reached via `other`). -/
def industryMultiplier : Industry → ℚ
  | .saas => 1
  | .ecommerce => 1
  | .agency => 95 / 100
  | .fintech => 95 / 100
  | .consulting => 9 / 10
  | .other => 8 / 10

/-- The budget proxy of `calculate_score`: base 60, overridden by a hiring
mention, else by company-size bracket. -/
def budgetScore (fullText : String) (companySize : Option String) : Nat :=
  if hasSub (lowerChars fullText) "hiring" then 85
  else if companySize = some "50-100" || companySize = some "100-200" then 75
  else if companySize = some "25-50" then 65
  else 60

/-- A Lead as assembled by `calculate_score` (the generated hook/offer strings
are deterministic templates not examined by any claim and are not modelled). -/
structure Lead where
  id : String
  source : String
  company : String
  contactName : String
  contactHandle : String
  contactBio : String
  contactFollowers : Nat
  painText : String
  painScore : Nat
  authorityScore : Nat
  authorityTier : AuthTier
  industry : Industry
  companySize : String
  budget : Nat
  total : Nat
  tier : LeadTier
  outreachStatus : String
deriving DecidableEq, Repr

/-- The minimum qualifying composite score (`min_score = 50` in the source,
"Demo mode: lower threshold"). -/
def minScore : Nat := 50

/-- Direct rational model of the composite expression of `calculate_score`:
Python computes `int((pain*0.45 + authority*0.30 + budget*0.25) * multiplier)`
over floats; on every reachable score combination that equals the exact
rational floor modelled here (scores are non-negative, so `int` truncation
is floor). -/
def compositeTotalRat (pain authority budget : Nat) (mult : ℚ) : Nat :=
  (Int.floor (((pain : ℚ) * (45 / 100) + (authority : ℚ) * (30 / 100) +
      (budget : ℚ) * (25 / 100)) * mult)).toNat

/-- Numerator of the industry multiplier over 100. -/
def multNum : Industry → Nat
  | .saas => 100
  | .ecommerce => 100
  | .agency => 95
  | .fintech => 95
  | .consulting => 90
  | .other => 80

/-- The composite total, as the equivalent natural-number division (proved
equal to the rational-floor model in `compositeTotal_eq_rat` below); this
form is kernel-computable. -/
def compositeTotal (pain authority budget : Nat) (ind : Industry) : Nat :=
  (pain * 45 + authority * 30 + budget * 25) * multNum ind / 10000

/-- The text blob scored by `calculate_score`
(`item.get('text','') + ' ' + item.get('description','') + ' ' + item.get('title','')`). -/
def fullText (item : Item) : String :=
  item.text.getD "" ++ " " ++ item.description.getD "" ++ " " ++ item.title.getD ""

/-- `LeadGenAgent.calculate_score`: composite lead score, or `none` when the
record is rejected. -/
def calculate_score (item : Item) : Option Lead :=
  let text := fullText item
  let pain := score_pain text
  if pain < 40 then none
  else
    let auth := score_authority item
    let industry := detect_industry item
    let budget := budgetScore text item.companySize
    let total := compositeTotal pain auth.1 budget industry
    if total < minScore then none
    else some
      { id := "nexus_" ++ item.id
        source := item.source
        company := item.company.getD "Unknown"
        contactName := item.authorName.getD "Unknown"
        contactHandle := item.author.getD ""
        contactBio := item.bio.getD ""
        contactFollowers := item.followers
        painText := (item.text.getD (item.description.getD ""))
        painScore := pain
        authorityScore := auth.1
        authorityTier := auth.2
        industry := industry
        companySize := item.companySize.getD "unknown"
        budget := budget
        total := total
        tier := if total ≥ 85 then .hot else if total ≥ 75 then .warm else .cool
        outreachStatus := "pending" }

/-! ## Pipeline State Store

A single-file JSON collection (`deals.json`, `outreach.json`, `meetings.json`,
`clients.json`, `case_studies.json`): the file may be missing, exist with
blank content, or hold a JSON array.  The load pattern in the source treats
the first two as the empty collection; the append pattern loads, extends and
rewrites the whole file. -/

/-- State of one collection file. -/
inductive FileSt (α : Type)
  | missing
  | blank
  | items (l : List α)
deriving DecidableEq, Repr

/-- Loading a collection file (`if not filepath.exists(): []`, blank content
also yields `[]`, otherwise the parsed array). -/
def loadFile {α : Type} : FileSt α → List α
  | .missing => []
  | .blank => []
  | .items l => l

/-- The append pattern of `_save_deals` / `_save_outreach` / the invoice save:
load existing, extend, rewrite. -/
def appendFile {α : Type} (f : FileSt α) (xs : List α) : FileSt α :=
  .items (loadFile f ++ xs)

/-! ## Outreach stage (`scripts/outreach.py`) -/

/-- A simulated prospect reply; the subject/body template strings carry no
control-flow information and are not modelled. -/
structure Reply where
  rtype : String
  outcome : String
deriving DecidableEq, Repr

/-- A booked Meeting (`meetings_booked.append(...)` in `OutreachAgent.run`);
the embedded lead snapshot is taken before the in-memory status update. -/
structure Meeting where
  leadId : String
  lead : Lead
  meetingTime : String
  reply : Reply
deriving DecidableEq, Repr

/-- An outreach log entry (`outreach_log.append(...)`). -/
structure OutreachEntry where
  leadId : String
  startedAt : String
  sequenceName : String
  stepsCount : Nat
  status : String
deriving DecidableEq, Repr

/-- Store slice the Outreach stage touches: the sharded `leads_*.json` files
(in glob order), `outreach.json` and `meetings.json`. -/
structure OutreachState where
  leadShards : List (List Lead)
  outreachLog : FileSt OutreachEntry
  meetings : FileSt Meeting
deriving Repr

/-- `OutreachAgent.load_pending_leads`: pending leads across all shards,
optionally filtered by tier. -/
def load_pending_leads (tier : Option LeadTier) (shards : List (List Lead)) : List Lead :=
  shards.flatten.filter
    (fun l => l.outreachStatus = "pending" && (tier = none || tier = some l.tier))

/-- The injectable entropy consumed per processed lead: the `random.choice`
over sequences for hot leads, the `random.random()` draw of `simulate_reply`
(a value in `[0,1)`), and the `random.choice` over the three reply types. -/
structure OutreachOracle where
  seqPick : Nat → Fin 2
  replyRand : Nat → ℚ
  replyPick : Nat → Fin 3

/-- The reply probability of `OutreachAgent.simulate_reply`. -/
def replyChance (lead : Lead) (step : Nat) : ℚ :=
  let base : ℚ := if step = 1 then 8 / 10 else if step = 2 then 5 / 10 else 3 / 10
  if lead.total ≥ 85 then 9 / 10 else base

/-- The `reply_types` table of `simulate_reply`. -/
def replyTypes : Fin 3 → Reply
  | 0 => ⟨"positive", "meeting_booked"⟩
  | 1 => ⟨"curious", "reply_received"⟩
  | 2 => ⟨"not_now", "nurture"⟩

/-- `OutreachAgent.simulate_reply`: `none` when the draw exceeds the reply
chance, otherwise a uniformly chosen reply type. -/
def simulate_reply (r : ℚ) (pick : Fin 3) (lead : Lead) (step : Nat) : Option Reply :=
  if r > replyChance lead step then none else some (replyTypes pick)

/-- The demo-mode forcing in `OutreachAgent.run`: a missing or `nurture`
reply is replaced by a forced positive `meeting_booked` reply. -/
def forcedReply (reply : Option Reply) : Reply :=
  match reply with
  | none => ⟨"positive", "meeting_booked"⟩
  | some rep => if rep.outcome = "nurture" then ⟨"positive", "meeting_booked"⟩ else rep

/-- Per-lead step-1 processing of `OutreachAgent.run`: the booked meeting, if
any.  After forcing, the outcome is always `meeting_booked` or
`reply_received`, so a meeting is always appended. -/
def processLead (oracle : OutreachOracle) (i : Nat) (lead : Lead) : Option Meeting :=
  let reply := forcedReply (simulate_reply (oracle.replyRand i) (oracle.replyPick i) lead 1)
  if reply.outcome = "meeting_booked" || reply.outcome = "reply_received" then
    some ⟨lead.id, lead, "Thursday 2pm", reply⟩
  else none

/-- The log entry built for each processed lead. -/
def logEntry (now : String) (dryRun : Bool) (lead : Lead) : OutreachEntry :=
  { leadId := lead.id
    startedAt := now
    sequenceName := if lead.total ≥ 85 then "Direct Value" else "Standard"
    stepsCount := 3
    status := if dryRun then "simulated" else "active" }

/-- `OutreachAgent.run`: processes pending leads up to the daily limit, books
simulated meetings, appends the outreach log and the meetings file, and
returns the booked meetings (`none` models the bare `return` when no pending
leads exist).  The in-memory `lead['outreach']['status']` update is applied to
the loaded copy only and is never written back, so the lead shards are
untouched. -/
def outreachRun (tier : Option LeadTier) (dryRun : Bool) (dailyLimit : Nat)
    (oracle : OutreachOracle) (now : String) (s : OutreachState) :
    OutreachState × Option (List Meeting) :=
  let leads := load_pending_leads tier s.leadShards
  if leads.isEmpty then (s, none)
  else
    let processed := leads.take dailyLimit
    let meetings := processed.enum.filterMap (fun p => processLead oracle p.1 p.2)
    let log := processed.map (logEntry now dryRun)
    let s1 : OutreachState :=
      { s with
        outreachLog := appendFile s.outreachLog log
        meetings := if meetings.isEmpty then s.meetings else appendFile s.meetings meetings }
    (s1, some meetings)

/-- The parameters of one Outreach run (tier filter, dry-run flag, the
config's daily send cap, the entropy source, the timestamp). -/
structure OutreachParams where
  tier : Option LeadTier
  dryRun : Bool
  dailyLimit : Nat
  oracle : OutreachOracle
  now : String

/-- The state transform of one Outreach run. -/
def applyOutreach (s : OutreachState) (p : OutreachParams) : OutreachState :=
  (outreachRun p.tier p.dryRun p.dailyLimit p.oracle p.now s).1

/-! ## Sales stage (`scripts/sales.py`) -/

/-- A closed Deal as assembled by `SalesAgent._close_deal`; the discovery
notes and qualification sub-dict are carried opaquely by the call oracle. -/
structure Deal where
  id : String
  leadId : String
  company : String
  tier : String
  value : Nat
  billing : String
  pilotDurationDays : Nat
  status : String
  closedAt : String
deriving DecidableEq, Repr

/-- Outcome of one simulated discovery call (`simulate_discovery_call`): the
call is driven by `random.choice` over templated answers, so it is modelled
as an injectable oracle per the spec's entropy-source treatment; a qualifying
score closes a deal, otherwise the lead is nurtured. -/
inductive CallOutcome
  | closedWon (deal : Deal)
  | nurture
deriving DecidableEq, Repr

/-- Store slice the Sales stage touches. -/
structure SalesState where
  meetings : FileSt Meeting
  deals : FileSt Deal
deriving Repr

/-- `SalesAgent.load_meetings`. -/
def load_meetings (s : SalesState) : List Meeting :=
  loadFile s.meetings

/-- `SalesAgent.run`: early return when no meetings are booked; otherwise
process every meeting, append the closed deals (if any), and delete the
meetings file.  Returns the closed deals (`none` models the bare `return`). -/
def salesRun (call : Meeting → CallOutcome) (s : SalesState) :
    SalesState × Option (List Deal) :=
  let ms := load_meetings s
  if ms.isEmpty then (s, none)
  else
    let deals := ms.filterMap (fun m =>
      match call m with
      | .closedWon d => some d
      | .nurture => none)
    let s1 : SalesState :=
      { s with deals := if deals.isEmpty then s.deals else appendFile s.deals deals }
    ({ s1 with meetings := .missing }, some deals)

/-! ## Ops stage (`scripts/ops.py`) -/

/-- An active Client record, restricted to the fields the report reads. -/
structure Client where
  company : String
  tier : String
  mrr : Nat
  status : String
  automationType : String
  timeSavedWeekly : String
deriving DecidableEq, Repr

/-- A CaseStudy record, restricted to the fields the report reads; the
`results` sub-dict is carried opaquely. -/
structure CaseStudy where
  client : String
  challenge : String
  results : String
deriving DecidableEq, Repr

/-- Store slice the Ops stage loads (`OpsAgent.load_pipeline`). -/
structure OpsStore where
  leadShards : List (List Lead)
  outreach : FileSt OutreachEntry
  deals : FileSt Deal
  clients : FileSt Client
  caseStudies : FileSt CaseStudy
deriving Repr

/-- The snapshot returned by `load_pipeline`: lead shards merged in file
order, the other collections loaded from their single files. -/
structure PipelineData where
  leads : List Lead
  outreach : List OutreachEntry
  deals : List Deal
  clients : List Client
  caseStudies : List CaseStudy
deriving Repr

/-- `OpsAgent.load_pipeline`. -/
def load_pipeline (s : OpsStore) : PipelineData :=
  { leads := s.leadShards.flatten
    outreach := loadFile s.outreach
    deals := loadFile s.deals
    clients := loadFile s.clients
    caseStudies := loadFile s.caseStudies }

/-- Round half to even (the tie behaviour of Python's `round`). -/
def roundHalfEven (q : ℚ) : ℤ :=
  let f := ⌊q⌋
  let r := q - (f : ℚ)
  if r < 1 / 2 then f
  else if 1 / 2 < r then f + 1
  else if f % 2 = 0 then f else f + 1

/-- Python's `round(x, 1)` over exact rationals. -/
def pyRound1 (q : ℚ) : ℚ :=
  (roundHalfEven (q * 10) : ℚ) / 10

/-- The `summary` section of a Report. -/
structure Summary where
  totalLeads : Nat
  hotLeads : Nat
  warmLeads : Nat
  dealsClosed : Nat
  totalDealValue : Nat
  activeClients : Nat
  totalMrr : Nat
  caseStudies : Nat
deriving DecidableEq, Repr

/-- One line of the report's `active_clients` section. -/
structure ClientLine where
  company : String
  tier : String
  mrr : Nat
  automationType : String
  timeSaved : String
deriving DecidableEq, Repr

/-- One line of the report's `recent_case_studies` section. -/
structure CaseLine where
  client : String
  challenge : String
  results : String
deriving DecidableEq, Repr

/-- A business performance Report. -/
structure Report where
  generatedAt : String
  summary : Summary
  leadToDeal : ℚ
  activeClients : List ClientLine
  recentCaseStudies : List CaseLine
deriving DecidableEq, Repr

/-- `OpsAgent.generate_report`: aggregates the loaded pipeline snapshot;
`now` stands for `datetime.now().isoformat()`. -/
def generate_report (now : String) (s : OpsStore) : Report :=
  let data := load_pipeline s
  let leads := data.leads
  let hotLeads := (leads.filter (fun l => l.tier = .hot)).length
  let warmLeads := (leads.filter (fun l => l.tier = .warm)).length
  let closedDeals := data.deals.filter (fun d => d.status = "closed_won")
  let totalDealValue := (closedDeals.map (fun d => d.value)).sum
  let activeClients := data.clients.filter (fun c => c.status = "active")
  let totalMrr := (activeClients.map (fun c => c.mrr)).sum
  let leadToDeal : ℚ :=
    if leads.isEmpty then 0
    else (closedDeals.length : ℚ) / (leads.length : ℚ) * 100
  { generatedAt := now
    summary :=
      { totalLeads := leads.length
        hotLeads := hotLeads
        warmLeads := warmLeads
        dealsClosed := closedDeals.length
        totalDealValue := totalDealValue
        activeClients := activeClients.length
        totalMrr := totalMrr
        caseStudies := data.caseStudies.length }
    leadToDeal := pyRound1 leadToDeal
    activeClients := activeClients.map (fun c =>
      { company := c.company
        tier := c.tier
        mrr := c.mrr
        automationType := c.automationType
        timeSaved := c.timeSavedWeekly })
    recentCaseStudies :=
      (data.caseStudies.drop (data.caseStudies.length - 3)).map (fun cs =>
        { client := cs.client
          challenge := String.mk (cs.challenge.toList.take 50) ++ "..."
          results := cs.results }) }

/-! ## Orchestrator (`scripts/run_pipeline.py`)

The orchestrator is polymorphic in the store: each stage is an oracle that
transforms the store and either returns its output or raises (an
`Except.error` with the exception text).  This mirrors the `try/except`
wrapping around each `agent.run()` call. -/

/-- The five pipeline stages. -/
inductive StageTag
  | leadGen
  | outreach
  | sales
  | fulfillment
  | ops
deriving DecidableEq, Repr

/-- Stage oracles for one pipeline run over store type `σ`.  The Ops oracle
takes the `generate_invoices` flag (`False` in the halt branches, `True` in
the final step). -/
structure PipelineEnv (σ : Type) where
  leadGenS : σ → σ × Except String (List Lead)
  outreachS : σ → σ × Except String (Option (List Meeting))
  salesS : σ → σ × Except String (Option (List Deal))
  fulfillmentS : σ → σ × Except String Unit
  opsS : Bool → σ → σ × Except String Unit

/-- Python truthiness of the `meetings` / `deals` variables: `None` (bare
stage return) and the empty list are both falsy. -/
def falsyOpt {α : Type} : Option (List α) → Bool
  | none => true
  | some [] => true
  | some (_ :: _) => false

/-- Observable result of one orchestrator run: stages invoked in order, lines
appended to the shared `errors.log`, and whether the run reached
"PIPELINE COMPLETE" (`false` = a no-output halt branch). -/
structure RunTrace where
  invoked : List StageTag
  errors : List String
  completed : Bool
deriving DecidableEq, Repr

/-- `run_full_pipeline`: fixed stage order, per-stage exception capture
(`log_error` with a stage prefix, output replaced by the empty value), and
the empty-output short-circuits to Ops. -/
def run_full_pipeline {σ : Type} (env : PipelineEnv σ) (s0 : σ) : σ × RunTrace :=
  let p1 := env.leadGenS s0
  let s1 := p1.1
  let leadRes : List String × List Lead :=
    match p1.2 with
    | .ok v => ([], v)
    | .error e => (["Lead Gen: " ++ e], [])
  if leadRes.2.isEmpty then
    (s1, ⟨[.leadGen], leadRes.1, false⟩)
  else
    let p2 := env.outreachS s1
    let s2 := p2.1
    let outRes : List String × Option (List Meeting) :=
      match p2.2 with
      | .ok v => ([], v)
      | .error e => (["Outreach: " ++ e], some [])
    if falsyOpt outRes.2 then
      let p5 := env.opsS false s2
      let opsErrs := match p5.2 with
        | .ok _ => []
        | .error e => ["Ops: " ++ e]
      (p5.1, ⟨[.leadGen, .outreach, .ops], leadRes.1 ++ outRes.1 ++ opsErrs, false⟩)
    else
      let p3 := env.salesS s2
      let s3 := p3.1
      let salesRes : List String × Option (List Deal) :=
        match p3.2 with
        | .ok v => ([], v)
        | .error e => (["Sales: " ++ e], some [])
      if falsyOpt salesRes.2 then
        let p5 := env.opsS false s3
        let opsErrs := match p5.2 with
          | .ok _ => []
          | .error e => ["Ops: " ++ e]
        (p5.1, ⟨[.leadGen, .outreach, .sales, .ops],
          leadRes.1 ++ outRes.1 ++ salesRes.1 ++ opsErrs, false⟩)
      else
        let p4 := env.fulfillmentS s3
        let s4 := p4.1
        let fulErrs := match p4.2 with
          | .ok _ => []
          | .error e => ["Fulfillment: " ++ e]
        let p5 := env.opsS true s4
        let opsErrs := match p5.2 with
          | .ok _ => []
          | .error e => ["Ops final: " ++ e]
        (p5.1, ⟨[.leadGen, .outreach, .sales, .fulfillment, .ops],
          leadRes.1 ++ outRes.1 ++ salesRes.1 ++ fulErrs ++ opsErrs, true⟩)

/-- The state transform of a single stage, ignoring its output. -/
def applyStage {σ : Type} (env : PipelineEnv σ) (invoices : Bool)
    (s : σ) (t : StageTag) : σ :=
  match t with
  | .leadGen => (env.leadGenS s).1
  | .outreach => (env.outreachS s).1
  | .sales => (env.salesS s).1
  | .fulfillment => (env.fulfillmentS s).1
  | .ops => (env.opsS invoices s).1

/-- Sequential application of stage transforms, as a replay of an invoked
stage list. -/
def replayStages {σ : Type} (env : PipelineEnv σ) (invoices : Bool)
    (tags : List StageTag) (s : σ) : σ :=
  tags.foldl (applyStage env invoices) s

/-- The `leads` value the orchestrator sees after step 1 (exception replaced
by the empty list). -/
def leadsOf {σ : Type} (env : PipelineEnv σ) (s0 : σ) : List Lead :=
  match (env.leadGenS s0).2 with
  | .ok v => v
  | .error _ => []

/-- The `meetings` value the orchestrator sees after step 2, at the state the
Outreach stage is actually called on. -/
def outreachYield {σ : Type} (env : PipelineEnv σ) (s0 : σ) : Option (List Meeting) :=
  match (env.outreachS (env.leadGenS s0).1).2 with
  | .ok v => v
  | .error _ => some []

/-- The `deals` value the orchestrator sees after step 3, at the state the
Sales stage is actually called on. -/
def salesYield {σ : Type} (env : PipelineEnv σ) (s0 : σ) : Option (List Deal) :=
  match (env.salesS (env.outreachS (env.leadGenS s0).1).1).2 with
  | .ok v => v
  | .error _ => some []

/-! ## Concrete fixtures for witnesses and counterexamples -/

/-- Claim C3's Signal Record: the spec scenario's text, a Founder bio, 6000
followers, e-commerce context. -/
def c3Item : Item :=
  { id := "tw_c3", source := "twitter",
    text := some "Spending 20+ hours every week manually reconciling inventory, currently hiring a 4th ops person",
    description := none, title := none, company := none, author := some "founder_c3",
    authorName := some "Casey Kim", bio := some "Founder @ShopCo | e-commerce operator",
    followers := 6000, companySize := none }

/-- An accepted record on which truncation and rounding disagree: the exact
weighted total is 54.8625, so `int` gives 54 while `round` gives 55. -/
def c1Item : Item :=
  { id := "tw_777", source := "twitter", text := some "5 hours every day in hell for our client",
    description := none, title := none, company := none, author := some "pat_agency",
    authorName := some "Pat Quinn", bio := some "founder", followers := 0, companySize := none }

/-- An accepted record used to witness the amended composite formula. -/
def c1wItem : Item :=
  { id := "rd_009", source := "reddit",
    text := some "Team of 5 spending 100+ hours/week on manual reporting at our SaaS company, leadership will not approve more headcount",
    description := none, title := none, company := none, author := some "ops_lead_99",
    authorName := some "Sam Lee", bio := some "Head of Ops at a startup",
    followers := 0, companySize := none }

/-- The Lead `calculate_score` produces on `c1wItem`. -/
def c1wLead : Lead :=
  { id := "nexus_rd_009", source := "reddit", company := "Unknown",
    contactName := "Sam Lee", contactHandle := "ops_lead_99",
    contactBio := "Head of Ops at a startup", contactFollowers := 0,
    painText := "Team of 5 spending 100+ hours/week on manual reporting at our SaaS company, leadership will not approve more headcount",
    painScore := 75, authorityScore := 30, authorityTier := .individual,
    industry := .saas, companySize := "unknown", budget := 60, total := 57,
    tier := .cool, outreachStatus := "pending" }

/-- An accepted record used to witness the range/tier invariant. -/
def c2Item : Item :=
  { id := "tw_001", source := "twitter",
    text := some "Spending 4 hours every morning manually reconciling inventory across Shopify, Amazon, and our warehouse system. This is insane. There has to be a better way 😭",
    description := none, title := none, company := none, author := some "marissa_founder",
    authorName := some "Marissa Chen", bio := some "Founder @RapidCart | 3x founder | E-commerce operator",
    followers := 3400, companySize := none }

/-- The Lead `calculate_score` produces on `c2Item`. -/
def c2Lead : Lead :=
  { id := "nexus_tw_001", source := "twitter", company := "Unknown",
    contactName := "Marissa Chen", contactHandle := "marissa_founder",
    contactBio := "Founder @RapidCart | 3x founder | E-commerce operator",
    contactFollowers := 3400,
    painText := "Spending 4 hours every morning manually reconciling inventory across Shopify, Amazon, and our warehouse system. This is insane. There has to be a better way 😭",
    painScore := 70, authorityScore := 60, authorityTier := .decision_maker,
    industry := .ecommerce, companySize := "unknown", budget := 60, total := 64,
    tier := .cool, outreachStatus := "pending" }

/-- A low-pain record (single keyword hit, pain 15) rejected by the
pre-filter. -/
def c4Item : Item :=
  { id := "tw_004", source := "twitter",
    text := some "Manual testing is boring, wish it was automated",
    description := none, title := none, company := none, author := some "random_dev",
    authorName := some "Alex Johnson", bio := some "Software engineer",
    followers := 340, companySize := none }

/-- A generic pending lead used to populate outreach fixtures. -/
def pendingLead : Lead :=
  { id := "L1", source := "twitter", company := "Acme", contactName := "Ada Byron",
    contactHandle := "ada", contactBio := "founder", contactFollowers := 10,
    painText := "manual work", painScore := 60, authorityScore := 45,
    authorityTier := .influencer, industry := .saas, companySize := "unknown",
    budget := 60, total := 64, tier := .cool, outreachStatus := "pending" }

/-- Outreach store with three pending leads across two shards (the C6
scenario's "3 pending leads"). -/
def c6State : OutreachState :=
  { leadShards := [[pendingLead, { pendingLead with id := "L2" }], [{ pendingLead with id := "L3" }]]
    outreachLog := .missing
    meetings := .missing }

/-- Entropy source on which every `simulate_reply` draw misses (`0.99` is
above every reply chance), modelling "simulated reply probability forced
to 0". -/
def missOracle : OutreachOracle :=
  { seqPick := fun _ => 0, replyRand := fun _ => 99 / 100, replyPick := fun _ => 0 }

/-- Outreach store with one pending lead, for the amended-C6 witness. -/
def c6wState : OutreachState :=
  { leadShards := [[{ pendingLead with id := "L5" }]]
    outreachLog := .missing
    meetings := .blank }

/-- Outreach store with one pending lead, for the C10 witness. -/
def c10State : OutreachState :=
  { leadShards := [[{ pendingLead with id := "L4" }]]
    outreachLog := .blank
    meetings := .missing }

/-- Entropy source whose draws always hit (`0` is below every reply chance). -/
def hitOracle : OutreachOracle :=
  { seqPick := fun _ => 0, replyRand := fun _ => 0, replyPick := fun _ => 1 }

/-- A pipeline environment over a counter store whose Outreach stage raises
(for the C7 witness). -/
def env7 : PipelineEnv Nat :=
  { leadGenS := fun s => (s + 1, .ok [pendingLead])
    outreachS := fun s => (s + 10, .error "boom")
    salesS := fun s => (s + 100, .ok (some []))
    fulfillmentS := fun s => (s + 1000, .ok ())
    opsS := fun _ s => (s + 10000, .ok ()) }

/-- A pipeline environment over a counter store whose Outreach stage returns
zero meetings (for the amended-C6 witness). -/
def env6 : PipelineEnv Nat :=
  { leadGenS := fun s => (s + 1, .ok [pendingLead])
    outreachS := fun s => (s + 2, .ok (some []))
    salesS := fun s => (s + 3, .ok (some []))
    fulfillmentS := fun s => (s + 4, .ok ())
    opsS := fun _ s => (s + 5, .ok ()) }

/-- A closed deal fixture for the C8 witness. -/
def c8Deal : Deal :=
  { id := "deal_1", leadId := "L1", company := "Acme", tier := "starter",
    value := 500, billing := "monthly", pilotDurationDays := 14,
    status := "closed_won", closedAt := "t" }

/-- An ops store fixture for the C8 witness. -/
def c8Store : OpsStore :=
  { leadShards := [], outreach := .missing, deals := .blank,
    clients := .missing, caseStudies := .missing }

/-- The composite formula as the spec's claim C1 states it: `round` (half to
even, Python's convention) of the weighted industry-multiplied blend.  Stated
from the spec's words, for comparison against the source's truncation. -/
def compositeTotalSpec (pain authority budget : Nat) (mult : ℚ) : ℤ :=
  roundHalfEven (((pain : ℚ) * (45 / 100) + (authority : ℚ) * (30 / 100) +
    (budget : ℚ) * (25 / 100)) * mult)

/-! # Helper lemmas -/

/-- The pain score is clamped to 100. -/
theorem score_pain_le (text : String) : score_pain text ≤ 100 :=
  Nat.min_le_right _ _

/-- The authority score is clamped to 100. -/
theorem score_authority_le (item : Item) : (score_authority item).1 ≤ 100 :=
  Nat.min_le_right _ _

/-- The budget proxy only takes the values 85, 75, 65, 60. -/
theorem budgetScore_le (t : String) (cs : Option String) : budgetScore t cs ≤ 85 := by
  unfold budgetScore
  split_ifs <;> omega

/-- Every industry multiplier numerator is at most 100. -/
theorem multNum_le (ind : Industry) : multNum ind ≤ 100 := by
  cases ind <;> decide

/-- The clamped sub-scores bound the composite total by 96. -/
theorem compositeTotal_le (p a b : Nat) (ind : Industry)
    (hp : p ≤ 100) (ha : a ≤ 100) (hb : b ≤ 85) :
    compositeTotal p a b ind ≤ 96 := by
  unfold compositeTotal
  have h1 : p * 45 + a * 30 + b * 25 ≤ 9625 := by omega
  have h2 : (p * 45 + a * 30 + b * 25) * multNum ind ≤ 9625 * 100 :=
    Nat.mul_le_mul h1 (multNum_le ind)
  calc (p * 45 + a * 30 + b * 25) * multNum ind / 10000
      ≤ 9625 * 100 / 10000 := Nat.div_le_div_right h2
    _ = 96 := by norm_num

/-- Tier assignment read off the source's conditional, for any total. -/
theorem tier_iff (T : Nat) :
    ((if T ≥ 85 then LeadTier.hot else if T ≥ 75 then LeadTier.warm else LeadTier.cool) =
        LeadTier.hot ↔ 85 ≤ T) ∧
    ((if T ≥ 85 then LeadTier.hot else if T ≥ 75 then LeadTier.warm else LeadTier.cool) =
        LeadTier.warm ↔ 75 ≤ T ∧ T < 85) ∧
    ((if T ≥ 85 then LeadTier.hot else if T ≥ 75 then LeadTier.warm else LeadTier.cool) =
        LeadTier.cool ↔ T < 75) := by
  split_ifs with h1 h2 <;>
    refine ⟨?_, ?_, ?_⟩ <;> simp <;> omega

/-- The Nat-division composite agrees with the direct rational-floor model of
the source's float expression, for every sub-score and industry. -/
theorem compositeTotal_eq_rat (p a b : Nat) (ind : Industry) :
    compositeTotal p a b ind = compositeTotalRat p a b (industryMultiplier ind) := by
  have h : ((p : ℚ) * (45 / 100) + (a : ℚ) * (30 / 100) + (b : ℚ) * (25 / 100)) *
      industryMultiplier ind =
      (((p * 45 + a * 30 + b * 25) * multNum ind : Nat) : ℚ) / ((10000 : Nat) : ℚ) := by
    cases ind <;>
      · simp only [industryMultiplier, multNum]
        push_cast
        ring
  unfold compositeTotal compositeTotalRat
  rw [h, Rat.floor_natCast_div_natCast, ← Int.natCast_div, Int.toNat_natCast]

/-! # Claim theorems -/

/-- C1 (counterexample): the record `c1Item` is accepted with pain 65,
authority 45, budget 60 and the agency multiplier 0.95; the exact weighted
total is 54.8625, the code stores `int(...) = 54`, but the claim's
`round(...)` gives 55 — the claim's equation is false on the code. -/
theorem c1_counterexample :
    (calculate_score c1Item).map
        (fun l => (l.painScore, l.authorityScore, l.budget, l.industry, l.total)) =
      some (65, 45, 60, Industry.agency, 54) ∧
    compositeTotalSpec 65 45 60 (industryMultiplier Industry.agency) = 55 := by
  constructor
  · decide
  · have h0 : (((65 : Nat) : ℚ) * (45 / 100) + ((45 : Nat) : ℚ) * (30 / 100) +
        ((60 : Nat) : ℚ) * (25 / 100)) * industryMultiplier Industry.agency =
        (4389 : ℚ) / 80 := by
      simp only [industryMultiplier]
      norm_num
    unfold compositeTotalSpec roundHalfEven
    rw [h0]
    have hf : ⌊(4389 : ℚ) / 80⌋ = 54 := by
      rw [Int.floor_eq_iff]
      norm_num
    rw [hf]
    norm_num

/-- C1 (amended): for every Signal Record the Scoring Engine accepts, the
composite total equals the weighted, industry-multiplied blend of the stored
sub-scores truncated toward zero (the floor of the exact value), not
rounded. -/
theorem c1_amended_floor (item : Item) (lead : Lead)
    (h : calculate_score item = some lead) :
    lead.total = compositeTotalRat lead.painScore lead.authorityScore lead.budget
      (industryMultiplier lead.industry) := by
  simp only [calculate_score] at h
  split at h
  · exact Option.noConfusion h
  · split at h
    · exact Option.noConfusion h
    · injection h with h
      subst h
      exact compositeTotal_eq_rat _ _ _ _

/-- C1 witness: the amended floor formula instantiated on the accepted
record `c1wItem`. -/
theorem c1_amended_floor_witness :
    c1wLead.total = compositeTotalRat c1wLead.painScore c1wLead.authorityScore
      c1wLead.budget (industryMultiplier c1wLead.industry) :=
  c1_amended_floor c1wItem c1wLead (by decide)

/-- C2: every Lead the Scoring Engine emits has a composite total in
[0, 100] (indeed at least the minimum threshold 50), and its tier matches
the documented thresholds: hot iff total ≥ 85, warm iff 75 ≤ total < 85,
cool iff total < 75. -/
theorem c2_range_and_tier (item : Item) (lead : Lead)
    (h : calculate_score item = some lead) :
    lead.total ≤ 100 ∧ minScore ≤ lead.total ∧
    (lead.tier = LeadTier.hot ↔ 85 ≤ lead.total) ∧
    (lead.tier = LeadTier.warm ↔ 75 ≤ lead.total ∧ lead.total < 85) ∧
    (lead.tier = LeadTier.cool ↔ lead.total < 75) := by
  simp only [calculate_score] at h
  split at h
  · exact Option.noConfusion h
  · split at h
    · exact Option.noConfusion h
    · rename_i hpain htot
      injection h with h
      subst h
      dsimp only
      refine ⟨?_, ?_, ?_, ?_, ?_⟩
      · exact le_trans
          (compositeTotal_le _ _ _ _ (score_pain_le _) (score_authority_le _)
            (budgetScore_le _ _)) (by norm_num)
      · omega
      · exact (tier_iff _).1
      · exact (tier_iff _).2.1
      · exact (tier_iff _).2.2

/-- C2 witness: the range/tier invariant on the accepted record `c2Item`. -/
theorem c2_range_and_tier_witness :
    c2Lead.total ≤ 100 ∧ minScore ≤ c2Lead.total ∧
    (c2Lead.tier = LeadTier.hot ↔ 85 ≤ c2Lead.total) ∧
    (c2Lead.tier = LeadTier.warm ↔ 75 ≤ c2Lead.total ∧ c2Lead.total < 85) ∧
    (c2Lead.tier = LeadTier.cool ↔ c2Lead.total < 75) :=
  c2_range_and_tier c2Item c2Lead (by decide)

/-- C3: the spec scenario — 20+ hours weekly, manual reconciliation of
inventory, a hiring mention, a Founder bio with 6000 followers — yields
pain ≥ 95, a decision-maker authority tier, the ecommerce industry, a
composite total ≥ 85 and the hot tier. -/
theorem c3_scenario :
    (calculate_score c3Item).map
        (fun l => (decide (95 ≤ l.painScore), l.authorityTier, l.industry,
          decide (85 ≤ l.total), l.tier)) =
      some (true, AuthTier.decision_maker, Industry.ecommerce, true, LeadTier.hot) := by
  decide

/-- C4: the pain score is exactly the clamped additive tally of the five
independent detectors (quantified time, recurring frequency, one keyword
category, emotional intensity, hiring mention), and a pain score below 40
makes the Scoring Engine reject the record before any further scoring. -/
theorem c4_pain_tally_and_prefilter :
    (∀ text : String,
      score_pain text =
        min (timePoints (lowerChars text) + freqPoints (lowerChars text) +
          keywordPoints (lowerChars text) + emotionPoints (lowerChars text) +
          hiringPoints (lowerChars text)) 100) ∧
    (∀ item : Item, score_pain (fullText item) < 40 → calculate_score item = none) := by
  refine ⟨fun text => rfl, fun item h => ?_⟩
  simp only [calculate_score]
  rw [if_pos h]

/-- C4 witness: the low-pain record `c4Item` (pain 15) is rejected. -/
theorem c4_pain_tally_and_prefilter_witness :
    score_pain (fullText c4Item) < 40 ∧ calculate_score c4Item = none :=
  ⟨by decide, c4_pain_tally_and_prefilter.2 c4Item (by decide)⟩

/-- C5: after the Sales stage's run, the Meeting collection is empty no
matter how many meetings existed: with no meetings the early return leaves
the already-empty collection, otherwise every meeting is processed and the
meetings file is deleted. -/
theorem c5_meeting_drain (call : Meeting → CallOutcome) (s : SalesState) :
    load_meetings (salesRun call s).1 = [] := by
  simp only [salesRun]
  split
  · rename_i h
    exact List.isEmpty_iff.mp h
  · rfl

/-- C8: the Store round trip — appending a batch (load, extend, rewrite)
then loading yields the previously loaded items followed by the batch, both
for a generic single-file collection and through `load_pipeline`; loads are
pure reads with no state effect, so loading is idempotent by construction. -/
theorem c8_store_roundtrip {α : Type} (f : FileSt α) (xs : List α) (hx : xs ≠ [])
    (s : OpsStore) (ds : List Deal) (hd : ds ≠ []) :
    loadFile (appendFile f xs) = loadFile f ++ xs ∧
    (load_pipeline { s with deals := appendFile s.deals ds }).deals =
      (load_pipeline s).deals ++ ds :=
  ⟨rfl, rfl⟩

/-- C8 witness: the round trip on concrete collections. -/
theorem c8_store_roundtrip_witness :
    loadFile (appendFile (FileSt.items [1, 2]) [3]) = [1, 2] ++ [3] ∧
    (load_pipeline { c8Store with deals := appendFile c8Store.deals [c8Deal] }).deals =
      (load_pipeline c8Store).deals ++ [c8Deal] :=
  @c8_store_roundtrip Nat (FileSt.items [1, 2]) [3] (by decide) c8Store [c8Deal] (by decide)

/-- C9: two Ops reports generated from the same Store state have identical
summaries, conversion rates, client details and case-study sections — the
timestamp is the only input that differs between the two runs. -/
theorem c9_report_idempotent (s : OpsStore) (t1 t2 : String) :
    (generate_report t1 s).summary = (generate_report t2 s).summary ∧
    (generate_report t1 s).leadToDeal = (generate_report t2 s).leadToDeal ∧
    (generate_report t1 s).activeClients = (generate_report t2 s).activeClients ∧
    (generate_report t1 s).recentCaseStudies = (generate_report t2 s).recentCaseStudies :=
  ⟨rfl, rfl, rfl, rfl⟩

/-- One Outreach run never touches the lead shard files. -/
theorem outreachRun_leadShards (tier : Option LeadTier) (dry : Bool) (limit : Nat)
    (oracle : OutreachOracle) (now : String) (s : OutreachState) :
    ((outreachRun tier dry limit oracle now s).1).leadShards = s.leadShards := by
  simp only [outreachRun]
  split
  · rfl
  · rfl

/-- Any sequence of Outreach runs leaves the lead shard files untouched. -/
theorem foldl_outreach_leadShards (runs : List OutreachParams) (s : OutreachState) :
    (runs.foldl applyOutreach s).leadShards = s.leadShards := by
  induction runs generalizing s with
  | nil => rfl
  | cons p ps ih =>
    rw [List.foldl_cons]
    exact (ih (applyOutreach s p)).trans
      (outreachRun_leadShards p.tier p.dryRun p.dailyLimit p.oracle p.now s)

/-- C10: Outreach runs write only the outreach log and Meeting collections —
the persisted lead shards are never rewritten, so if every stored lead is
pending before any number of Outreach runs (dry-run or live), every stored
lead is still pending afterwards; the in-memory status flip to `active`
is never saved. -/
theorem c10_lead_files_frame (runs : List OutreachParams) (s : OutreachState)
    (hp : ∀ l ∈ s.leadShards.flatten, l.outreachStatus = "pending") :
    (runs.foldl applyOutreach s).leadShards = s.leadShards ∧
    ∀ l ∈ (runs.foldl applyOutreach s).leadShards.flatten, l.outreachStatus = "pending" := by
  refine ⟨foldl_outreach_leadShards runs s, ?_⟩
  rw [foldl_outreach_leadShards runs s]
  exact hp

/-- The demo-mode forcing books a meeting for every processed lead: after
`forcedReply`, the outcome is always `meeting_booked` or `reply_received`. -/
theorem processLead_isSome (oracle : OutreachOracle) (i : Nat) (lead : Lead) :
    (processLead oracle i lead).isSome := by
  unfold processLead forcedReply simulate_reply
  by_cases h : oracle.replyRand i > replyChance lead 1
  · simp [h]
  · have hp : (oracle.replyPick i = 0) ∨ (oracle.replyPick i = 1) ∨ (oracle.replyPick i = 2) := by
      omega
    rcases hp with hp | hp | hp <;> simp [h, hp, replyTypes]

/-- Every element of the processed-lead enumeration yields a meeting, so the
booked-meeting count equals the processed-lead count. -/
theorem length_filterMap_processLead (o : OutreachOracle) (k : Nat) (l : List Lead) :
    ((List.enumFrom k l).filterMap (fun p => processLead o p.1 p.2)).length = l.length := by
  induction l generalizing k with
  | nil => rfl
  | cons x xs ih =>
    obtain ⟨m, hm⟩ := Option.isSome_iff_exists.mp (processLead_isSome o k x)
    simp only [List.enumFrom, List.filterMap_cons, hm, List.length_cons]
    exact congrArg Nat.succ (ih (k + 1))

/-- With pending leads present, an Outreach run books exactly one meeting
per processed lead: `min daily_limit #pending` meetings, never zero. -/
theorem outreachRun_meetings_count (tier : Option LeadTier) (dry : Bool) (limit : Nat)
    (oracle : OutreachOracle) (now : String) (s : OutreachState)
    (h : load_pending_leads tier s.leadShards ≠ []) :
    ((outreachRun tier dry limit oracle now s).2).map List.length =
      some (min limit (load_pending_leads tier s.leadShards).length) := by
  simp only [outreachRun]
  split
  · rename_i h2
    exact absurd (List.isEmpty_iff.mp h2) h
  · simp only [List.enum]
    calc some ((List.enumFrom 0 ((load_pending_leads tier s.leadShards).take limit)).filterMap
          (fun p => processLead oracle p.1 p.2)).length
        = some ((load_pending_leads tier s.leadShards).take limit).length := by
          rw [length_filterMap_processLead oracle 0 _]
      _ = some (min limit (load_pending_leads tier s.leadShards).length) := by
          rw [List.length_take]

/-- C6 (counterexample): with three pending leads and an entropy source on
which every simulated reply draw misses (modelling reply probability 0),
Outreach books 3 meetings, not 0 — the demo-mode forcing converts every
missed reply into a booked meeting, so the claimed scenario is false. -/
theorem c6_counterexample :
    ((outreachRun none true 10 missOracle "t0" c6State).2).map List.length = some 3 ∧
    (3 : Nat) ≠ 0 := by
  constructor
  · rw [outreachRun_meetings_count none true 10 missOracle "t0" c6State (by decide)]
    decide
  · decide

/-- C6 (amended): whenever the Outreach stage yields zero Meetings (it
returned no list or an empty list), the Orchestrator never invokes Sales or
Fulfillment and runs only Ops afterwards; however, with pending leads
present, Outreach books one meeting per processed lead regardless of the
reply draw (demo-mode forcing), yielding `min daily_limit #pending` meetings
— never 0 — so the short-circuit triggers only when no pending leads
exist. -/
theorem c6_amended :
    (∀ (σ : Type) (env : PipelineEnv σ) (s0 : σ),
      leadsOf env s0 ≠ [] → falsyOpt (outreachYield env s0) = true →
      (run_full_pipeline env s0).2.invoked =
        [StageTag.leadGen, StageTag.outreach, StageTag.ops] ∧
      (run_full_pipeline env s0).2.completed = false) ∧
    (∀ (tier : Option LeadTier) (dry : Bool) (limit : Nat) (oracle : OutreachOracle)
      (now : String) (s : OutreachState),
      load_pending_leads tier s.leadShards ≠ [] →
      ((outreachRun tier dry limit oracle now s).2).map List.length =
        some (min limit (load_pending_leads tier s.leadShards).length)) := by
  constructor
  · intro σ env s0 hne hfalsy
    simp only [run_full_pipeline]
    cases h1 : (env.leadGenS s0).2 with
    | error e =>
      exact absurd (by simp [leadsOf, h1]) hne
    | ok v =>
      have hv : v ≠ [] := by simpa [leadsOf, h1] using hne
      have hve : v.isEmpty = false := by
        simpa [List.isEmpty_iff] using hv
      simp only [hve]
      cases h2 : (env.outreachS (env.leadGenS s0).1).2 with
      | error e =>
        simp [falsyOpt]
      | ok m =>
        have hm : falsyOpt m = true := by
          simpa [outreachYield, h2] using hfalsy
        simp only [hm]
        simp
  · exact outreachRun_meetings_count

/-- C6 witness: the short-circuit on a concrete zero-meeting environment and
the meeting count on a concrete one-pending-lead store. -/
theorem c6_amended_witness :
    ((run_full_pipeline env6 0).2.invoked =
        [StageTag.leadGen, StageTag.outreach, StageTag.ops] ∧
      (run_full_pipeline env6 0).2.completed = false) ∧
    ((outreachRun none true 7 hitOracle "t2" c6wState).2).map List.length =
      some (min 7 (load_pending_leads none c6wState.leadShards).length) :=
  ⟨c6_amended.1 Nat env6 0 (by decide) (by decide),
    c6_amended.2 none true 7 hitOracle "t2" c6wState (by decide)⟩

/-- C7: every exception inside a Stage Agent is caught at its stage boundary
and recorded in the shared error log with its stage prefix; the stage is
treated as having produced empty output, so the run proceeds to the
corresponding no-output halt branch (Fulfillment and Ops failures simply let
the run continue) instead of aborting; and the final store state is exactly
the sequential application of the invoked stages' transforms — the
orchestrator never rolls back an earlier stage's writes. -/
theorem c7_fault_isolation (σ : Type) (env : PipelineEnv σ) (s0 : σ) :
    ((run_full_pipeline env s0).1 =
      replayStages env (run_full_pipeline env s0).2.completed
        (run_full_pipeline env s0).2.invoked s0) ∧
    (∀ e, (env.leadGenS s0).2 = Except.error e →
      ("Lead Gen: " ++ e) ∈ (run_full_pipeline env s0).2.errors ∧
      (run_full_pipeline env s0).2.invoked = [StageTag.leadGen] ∧
      (run_full_pipeline env s0).2.completed = false) ∧
    (∀ e, leadsOf env s0 ≠ [] →
      (env.outreachS (env.leadGenS s0).1).2 = Except.error e →
      ("Outreach: " ++ e) ∈ (run_full_pipeline env s0).2.errors ∧
      (run_full_pipeline env s0).2.invoked =
        [StageTag.leadGen, StageTag.outreach, StageTag.ops] ∧
      (run_full_pipeline env s0).2.completed = false) ∧
    (∀ e, leadsOf env s0 ≠ [] → falsyOpt (outreachYield env s0) = false →
      (env.salesS (env.outreachS (env.leadGenS s0).1).1).2 = Except.error e →
      ("Sales: " ++ e) ∈ (run_full_pipeline env s0).2.errors ∧
      (run_full_pipeline env s0).2.invoked =
        [StageTag.leadGen, StageTag.outreach, StageTag.sales, StageTag.ops] ∧
      (run_full_pipeline env s0).2.completed = false) ∧
    (∀ e, leadsOf env s0 ≠ [] → falsyOpt (outreachYield env s0) = false →
      falsyOpt (salesYield env s0) = false →
      (env.fulfillmentS (env.salesS (env.outreachS (env.leadGenS s0).1).1).1).2 =
        Except.error e →
      ("Fulfillment: " ++ e) ∈ (run_full_pipeline env s0).2.errors ∧
      (run_full_pipeline env s0).2.invoked =
        [StageTag.leadGen, StageTag.outreach, StageTag.sales, StageTag.fulfillment,
          StageTag.ops] ∧
      (run_full_pipeline env s0).2.completed = true) ∧
    (∀ e, leadsOf env s0 ≠ [] → falsyOpt (outreachYield env s0) = true →
      (env.opsS false (env.outreachS (env.leadGenS s0).1).1).2 = Except.error e →
      ("Ops: " ++ e) ∈ (run_full_pipeline env s0).2.errors) ∧
    (∀ e, leadsOf env s0 ≠ [] → falsyOpt (outreachYield env s0) = false →
      falsyOpt (salesYield env s0) = true →
      (env.opsS false (env.salesS (env.outreachS (env.leadGenS s0).1).1).1).2 =
        Except.error e →
      ("Ops: " ++ e) ∈ (run_full_pipeline env s0).2.errors) ∧
    (∀ e, leadsOf env s0 ≠ [] → falsyOpt (outreachYield env s0) = false →
      falsyOpt (salesYield env s0) = false →
      (env.opsS true (env.fulfillmentS
          (env.salesS (env.outreachS (env.leadGenS s0).1).1).1).1).2 = Except.error e →
      ("Ops final: " ++ e) ∈ (run_full_pipeline env s0).2.errors ∧
      (run_full_pipeline env s0).2.completed = true) := by
  refine ⟨?_, ?_, ?_, ?_, ?_, ?_, ?_, ?_⟩
  · simp only [run_full_pipeline]
    cases h1 : (env.leadGenS s0).2 with
    | error e => simp [replayStages, applyStage]
    | ok v =>
      cases hv : v.isEmpty with
      | true => simp [replayStages, applyStage]
      | false =>
        cases h2 : (env.outreachS (env.leadGenS s0).1).2 with
        | error e => simp [falsyOpt, replayStages, applyStage]
        | ok m =>
          cases hm : falsyOpt m with
          | true => simp [hm, replayStages, applyStage]
          | false =>
            cases h3 : (env.salesS (env.outreachS (env.leadGenS s0).1).1).2 with
            | error e => simp [hm, falsyOpt, replayStages, applyStage]
            | ok d =>
              cases hd : falsyOpt d with
              | true => simp [hm, hd, replayStages, applyStage]
              | false => simp [hm, hd, replayStages, applyStage]
  · intro e h1
    simp [run_full_pipeline, h1]
  · intro e hne h2
    cases h1 : (env.leadGenS s0).2 with
    | error e1 => exact absurd (by simp [leadsOf, h1]) hne
    | ok v =>
      have hv : v ≠ [] := by simpa [leadsOf, h1] using hne
      have hve : v.isEmpty = false := by simpa [List.isEmpty_iff] using hv
      simp [run_full_pipeline, h1, hve, h2, falsyOpt]
  · intro e hne hof h3
    cases h1 : (env.leadGenS s0).2 with
    | error e1 => exact absurd (by simp [leadsOf, h1]) hne
    | ok v =>
      have hv : v ≠ [] := by simpa [leadsOf, h1] using hne
      have hve : v.isEmpty = false := by simpa [List.isEmpty_iff] using hv
      cases h2 : (env.outreachS (env.leadGenS s0).1).2 with
      | error e1 => simp [outreachYield, h2, falsyOpt] at hof
      | ok m =>
        have hm : falsyOpt m = false := by simpa [outreachYield, h2] using hof
        simp only [run_full_pipeline, h1, hve, h2, hm, h3]
        simp [falsyOpt]
  · intro e hne hof hsf h4
    cases h1 : (env.leadGenS s0).2 with
    | error e1 => exact absurd (by simp [leadsOf, h1]) hne
    | ok v =>
      have hv : v ≠ [] := by simpa [leadsOf, h1] using hne
      have hve : v.isEmpty = false := by simpa [List.isEmpty_iff] using hv
      cases h2 : (env.outreachS (env.leadGenS s0).1).2 with
      | error e1 => simp [outreachYield, h2, falsyOpt] at hof
      | ok m =>
        have hm : falsyOpt m = false := by simpa [outreachYield, h2] using hof
        cases h3 : (env.salesS (env.outreachS (env.leadGenS s0).1).1).2 with
        | error e1 => simp [salesYield, h3, falsyOpt] at hsf
        | ok d =>
          have hd : falsyOpt d = false := by simpa [salesYield, h3] using hsf
          simp [run_full_pipeline, h1, hve, h2, hm, h3, hd, h4]
  · intro e hne hof hop
    cases h1 : (env.leadGenS s0).2 with
    | error e1 => exact absurd (by simp [leadsOf, h1]) hne
    | ok v =>
      have hv : v ≠ [] := by simpa [leadsOf, h1] using hne
      have hve : v.isEmpty = false := by simpa [List.isEmpty_iff] using hv
      cases h2 : (env.outreachS (env.leadGenS s0).1).2 with
      | error e1 => simp [run_full_pipeline, h1, hve, h2, hop, falsyOpt]
      | ok m =>
        have hm : falsyOpt m = true := by simpa [outreachYield, h2] using hof
        simp [run_full_pipeline, h1, hve, h2, hm, hop]
  · intro e hne hof hsf hop
    cases h1 : (env.leadGenS s0).2 with
    | error e1 => exact absurd (by simp [leadsOf, h1]) hne
    | ok v =>
      have hv : v ≠ [] := by simpa [leadsOf, h1] using hne
      have hve : v.isEmpty = false := by simpa [List.isEmpty_iff] using hv
      cases h2 : (env.outreachS (env.leadGenS s0).1).2 with
      | error e1 => simp [outreachYield, h2, falsyOpt] at hof
      | ok m =>
        have hm : falsyOpt m = false := by simpa [outreachYield, h2] using hof
        cases h3 : (env.salesS (env.outreachS (env.leadGenS s0).1).1).2 with
        | error e1 =>
          simp only [run_full_pipeline, h1, hve, h2, hm, h3]
          simp [falsyOpt, hop]
        | ok d =>
          have hd : falsyOpt d = true := by simpa [salesYield, h3] using hsf
          simp [run_full_pipeline, h1, hve, h2, hm, h3, hd, hop]
  · intro e hne hof hsf hop
    cases h1 : (env.leadGenS s0).2 with
    | error e1 => exact absurd (by simp [leadsOf, h1]) hne
    | ok v =>
      have hv : v ≠ [] := by simpa [leadsOf, h1] using hne
      have hve : v.isEmpty = false := by simpa [List.isEmpty_iff] using hv
      cases h2 : (env.outreachS (env.leadGenS s0).1).2 with
      | error e1 => simp [outreachYield, h2, falsyOpt] at hof
      | ok m =>
        have hm : falsyOpt m = false := by simpa [outreachYield, h2] using hof
        cases h3 : (env.salesS (env.outreachS (env.leadGenS s0).1).1).2 with
        | error e1 => simp [salesYield, h3, falsyOpt] at hsf
        | ok d =>
          have hd : falsyOpt d = false := by simpa [salesYield, h3] using hsf
          simp [run_full_pipeline, h1, hve, h2, hm, h3, hd, hop]

/-- C7 witness: on a concrete counter-store environment whose Outreach stage
raises "boom", the error is logged with its prefix, Sales and Fulfillment
are skipped and the run halts without aborting. -/
theorem c7_fault_isolation_witness :
    ("Outreach: " ++ "boom") ∈ (run_full_pipeline env7 0).2.errors ∧
    (run_full_pipeline env7 0).2.invoked =
      [StageTag.leadGen, StageTag.outreach, StageTag.ops] ∧
    (run_full_pipeline env7 0).2.completed = false :=
  (c7_fault_isolation Nat env7 0).2.2.1 "boom" (by decide) rfl

/-- C10 witness: a dry-run Outreach pass over a store with one pending lead
leaves the lead shards untouched and pending. -/
theorem c10_lead_files_frame_witness :
    (([⟨none, true, 5, hitOracle, "t1"⟩] : List OutreachParams).foldl applyOutreach
        c10State).leadShards = c10State.leadShards ∧
    ∀ l ∈ (([⟨none, true, 5, hitOracle, "t1"⟩] : List OutreachParams).foldl applyOutreach
        c10State).leadShards.flatten, l.outreachStatus = "pending" :=
  c10_lead_files_frame [⟨none, true, 5, hitOracle, "t1"⟩] c10State (by decide)

end Nexus
